import Mathlib

/-!
Verification of the time-series assembly logic of
`src/aqi_prediction/data/external_apis.py`.

The two functions `get_air_pollution_history` and `get_weather_history`
reshape an upstream API response (start timestamp, end timestamp, sampling
interval in seconds, positionally indexed value arrays) into a dictionary
keyed by column name, whose `"date"` entry is the timestamp axis produced
by `pd.date_range(start, end, freq, inclusive = "left")` and whose other
entries are the raw value arrays bound by position.

Timestamps are modelled as epoch seconds together with the timezone
awareness flag that `pd.to_datetime(..., unit = "s", utc = True)` attaches;
numeric arrays are modelled as `List α` for an arbitrary element type `α`,
since the assembly never inspects the numbers it carries.
-/

set_option autoImplicit false

namespace AqiPrediction

/-- A pandas timestamp: an instant in epoch seconds plus the flag recording
whether it is timezone-aware in UTC (`pd.to_datetime(..., utc = True)`). -/
structure Timestamp where
  epoch : Int
  utc : Bool
deriving DecidableEq, Repr

/-- Models `pd.to_datetime(s, unit = "s", utc = flag)`: interprets `s` as
seconds since the epoch and records the requested timezone awareness. -/
def pdToDatetime (s : Int) (utc : Bool) : Timestamp :=
  ⟨s, utc⟩

/-- The epochs generated by `pd.date_range(start, stop, freq = step,
inclusive = "left")` on epoch-second instants: the arithmetic progression
`start, start + step, ...` of every instant in the half-open window
`[start, stop)`, which is empty unless `step` is positive and
`start < stop`.  The count `⌈(stop - start) / step⌉` is written with the
identity `⌈a / s⌉ = (a + s - 1) / s` for positive `a` and `s`. -/
def dateRangeEpochs (start stop step : Int) : List Int :=
  if 0 < step ∧ start < stop then
    (List.range ((stop - start + step - 1) / step).toNat).map
      (fun (k : Nat) => start + (k : Int) * step)
  else []

/-- Models `pd.date_range(start = start, end = stop, freq = pd.Timedelta
(seconds = step), inclusive = "left")`: every generated timestamp inherits
the timezone awareness of the `start` instant. -/
def pdDateRange (start stop : Timestamp) (step : Int) : List Timestamp :=
  (dateRangeEpochs start.epoch stop.epoch step).map (fun e => ⟨e, start.utc⟩)

/-- The `"date"` axis built at lines 49-54 and 104-109 of
`external_apis.py`: `pd.date_range` between `hourly.Time()` and
`hourly.TimeEnd()` converted with `utc = True`, spaced by
`hourly.Interval()` seconds, half-open on the right. -/
def hourlyDateAxis (time timeEnd interval : Int) : List Timestamp :=
  pdDateRange (pdToDatetime time true) (pdToDatetime timeEnd true) interval

/-- The hourly block of an upstream API response: `hourly.Time()`,
`hourly.TimeEnd()`, `hourly.Interval()` and the positionally indexed value
arrays `hourly.Variables(i).ValuesAsNumpy()`. -/
structure HourlyResponse (α : Type) where
  time : Int
  timeEnd : Int
  interval : Int
  Variables : List (List α)

/-- A column of the returned dictionary, mirroring the Python result type
`Dict[str, Union[pd.DatetimeIndex, np.ndarray]]`: either the timestamp
axis or a raw value array. -/
inductive ColumnValue (α : Type) where
  | dates : List Timestamp → ColumnValue α
  | values : List α → ColumnValue α
deriving DecidableEq, Repr

/-- The variable names requested from the air-quality endpoint, in request
order (`params["hourly"]` of `get_air_pollution_history`). -/
def airHourlyNames : List String :=
  ["pm10", "pm2_5", "sulphur_dioxide", "nitrogen_dioxide", "ozone",
   "carbon_monoxide", "european_aqi"]

/-- The variable names requested from the weather archive endpoint, in
request order (`params["hourly"]` of `get_weather_history`). -/
def weatherHourlyNames : List String :=
  ["temperature_2m", "relative_humidity_2m", "rain", "dew_point_2m"]

/-- The assembly performed by `get_air_pollution_history` (lines 38-64 of
`external_apis.py`) on the hourly block of the response: destructure the
seven variables by positional index, generate the `"date"` axis with
`pd.date_range`, then insert the seven arrays under their names, in
request order.  The HTTP fetch producing `hourly` is the out-of-scope
external collaborator. -/
def get_air_pollution_history {α : Type} (hourly : HourlyResponse α) :
    List (String × ColumnValue α) :=
  let hourly_pm10 := hourly.Variables.getD 0 []
  let hourly_pm2_5 := hourly.Variables.getD 1 []
  let hourly_sulphur_dioxide := hourly.Variables.getD 2 []
  let hourly_nitrogen_dioxide := hourly.Variables.getD 3 []
  let hourly_ozone := hourly.Variables.getD 4 []
  let hourly_carbon_monoxide := hourly.Variables.getD 5 []
  let hourly_european_aqi := hourly.Variables.getD 6 []
  [("date", ColumnValue.dates
      (pdDateRange (pdToDatetime hourly.time true)
        (pdToDatetime hourly.timeEnd true) hourly.interval)),
   ("pm10", ColumnValue.values hourly_pm10),
   ("pm2_5", ColumnValue.values hourly_pm2_5),
   ("sulphur_dioxide", ColumnValue.values hourly_sulphur_dioxide),
   ("nitrogen_dioxide", ColumnValue.values hourly_nitrogen_dioxide),
   ("ozone", ColumnValue.values hourly_ozone),
   ("carbon_monoxide", ColumnValue.values hourly_carbon_monoxide),
   ("european_aqi", ColumnValue.values hourly_european_aqi)]

/-- The assembly performed by `get_weather_history` (lines 96-116 of
`external_apis.py`), identical in shape to the air-quality one but with
the four weather variables. -/
def get_weather_history {α : Type} (hourly : HourlyResponse α) :
    List (String × ColumnValue α) :=
  let hourly_temperature_2m := hourly.Variables.getD 0 []
  let hourly_relative_humidity_2m := hourly.Variables.getD 1 []
  let hourly_rain := hourly.Variables.getD 2 []
  let hourly_dew_point_2m := hourly.Variables.getD 3 []
  [("date", ColumnValue.dates
      (pdDateRange (pdToDatetime hourly.time true)
        (pdToDatetime hourly.timeEnd true) hourly.interval)),
   ("temperature_2m", ColumnValue.values hourly_temperature_2m),
   ("relative_humidity_2m", ColumnValue.values hourly_relative_humidity_2m),
   ("rain", ColumnValue.values hourly_rain),
   ("dew_point_2m", ColumnValue.values hourly_dew_point_2m)]

/-- Lookup in the returned dictionary, first match on the key; Python dicts
never hold duplicate keys, and all keys inserted here are distinct, so
first match agrees with dict semantics. -/
def dictGet {α : Type} (d : List (String × ColumnValue α)) (key : String) :
    Option (ColumnValue α) :=
  match d with
  | [] => none
  | (k, v) :: rest => if k = key then some v else dictGet rest key

/-- The timestamp axis of a returned dictionary: its `"date"` column. -/
def dateAxis {α : Type} (d : List (String × ColumnValue α)) : List Timestamp :=
  match dictGet d "date" with
  | some (ColumnValue.dates l) => l
  | _ => []

/-- The value a returned dictionary holds at sample index `k` of the column
named `fld`: the `k`-th entry of that column's value array, the entry
aligned with the `k`-th timestamp of the `"date"` axis. -/
def seriesAt {α : Type} (d : List (String × ColumnValue α)) (fld : String)
    (k : Nat) : Option α :=
  match dictGet d fld with
  | some (ColumnValue.values l) => l.get? k
  | _ => none

/-! ### The spec's `TimeSeriesAssembler`

Section 4.1 of the specification re-architects the assembly as a generic
`assemble(payload)` over a named-variable payload, with three precondition
checks.  No such validating code exists in the repository (the Python
functions perform no validation), so the component is modelled from the
spec's words below. -/

/-- A named numeric array of the spec's data model (section 3). -/
structure RawVariableSeries (α : Type) where
  name : String
  values : List α
deriving DecidableEq, Repr

/-- The spec's `ResponsePayload` (section 3): absolute start and end
instants in epoch seconds, the sampling interval in seconds, and the
ordered variables. -/
structure ResponsePayload (α : Type) where
  start_time : Int
  end_time : Int
  interval_seconds : Int
  variableSeries : List (RawVariableSeries α)
deriving DecidableEq, Repr

/-- The spec's precondition errors (section 7). -/
inductive AssembleError where
  | invalidInterval
  | inconsistentSeriesLength
  | invalidRange
deriving DecidableEq, Repr

/-- Whether all variable arrays of a payload share one length. -/
def seriesLengthsConsistent {α : Type} (p : ResponsePayload α) : Bool :=
  match p.variableSeries with
  | [] => true
  | v :: rest => rest.all (fun w => w.values.length = v.values.length)

/-- Modelled from the spec: the repository contains no `assemble` function;
section 4.1 specifies `assemble(payload) -> AssembledSeries` with the
precondition checks `InvalidIntervalError` (non-positive interval),
`InconsistentSeriesLengthError` (unequal array lengths) and
`InvalidRangeError` (`end_time` not strictly after `start_time`), checked
in the order the spec lists them; on success it returns, per sample index
`k`, the timestamp `start_time + k * interval_seconds` paired with the
record binding each variable name to its `values[k]`. -/
def assemble {α : Type} [Inhabited α] (p : ResponsePayload α) :
    Except AssembleError (List (Int × List (String × α))) :=
  if p.interval_seconds ≤ 0 then
    Except.error AssembleError.invalidInterval
  else if seriesLengthsConsistent p = false then
    Except.error AssembleError.inconsistentSeriesLength
  else if p.end_time ≤ p.start_time then
    Except.error AssembleError.invalidRange
  else
    let n := (p.variableSeries.head?.map (fun v => v.values.length)).getD 0
    Except.ok ((List.range n).map (fun (k : Nat) =>
      (p.start_time + (k : Int) * p.interval_seconds,
       p.variableSeries.map (fun v => (v.name, v.values.getD k default)))))

example : dateRangeEpochs 0 10 3 = [0, 3, 6, 9] := by decide
example : dateRangeEpochs 0 9 3 = [0, 3, 6] := by decide
example : dateRangeEpochs 5 5 3 = [] := by decide
example :
    hourlyDateAxis 0 7200 3600 = [⟨0, true⟩, ⟨3600, true⟩] := by decide
example :
    seriesAt (get_air_pollution_history
      (⟨0, 7200, 3600, [[10, 20], [30, 40]]⟩ : HourlyResponse Int))
      "pm2_5" 1 = some 40 := by decide
example :
    assemble (⟨0, 7200, 0, []⟩ : ResponsePayload Int) =
      Except.error AssembleError.invalidInterval := by rfl
example :
    assemble (⟨0, 7200, 3600, [⟨"pm10", [1, 2]⟩]⟩ : ResponsePayload Int) =
      Except.ok [(0, [("pm10", 1)]), (3600, [("pm10", 2)])] := by rfl

/-! ### Arithmetic of the half-open sample count

`pd.date_range(start, stop, step, inclusive = "left")` produces the
`⌈(stop - start) / step⌉` instants `start + k * step` lying in
`[start, stop)`; the two lemmas below relate membership of an index in
that count to the bound `k * step < stop - start`. -/

lemma mul_lt_of_lt_ceilDiv {a s k : Int} (hs : 0 < s)
    (h : k < (a + s - 1) / s) : k * s < a := by
  have he : s * ((a + s - 1) / s) + (a + s - 1) % s = a + s - 1 :=
    Int.ediv_add_emod (a + s - 1) s
  have hr0 : 0 ≤ (a + s - 1) % s := Int.emod_nonneg _ (ne_of_gt hs)
  have h2 : (k + 1) * s ≤ ((a + s - 1) / s) * s :=
    mul_le_mul_of_nonneg_right h (le_of_lt hs)
  have e1 : (k + 1) * s = k * s + s := by ring
  have e2 : ((a + s - 1) / s) * s = s * ((a + s - 1) / s) := by ring
  linarith

lemma lt_ceilDiv_of_mul_lt {a s k : Int} (hs : 0 < s)
    (h : k * s < a) : k < (a + s - 1) / s := by
  by_contra hc
  push_neg at hc
  have he : s * ((a + s - 1) / s) + (a + s - 1) % s = a + s - 1 :=
    Int.ediv_add_emod (a + s - 1) s
  have hrlt : (a + s - 1) % s < s := Int.emod_lt_of_pos _ hs
  have h2 : ((a + s - 1) / s) * s ≤ k * s :=
    mul_le_mul_of_nonneg_right hc (le_of_lt hs)
  have e2 : ((a + s - 1) / s) * s = s * ((a + s - 1) / s) := by ring
  linarith

lemma dateRangeEpochs_length (start stop step : Int) (hs : 0 < step)
    (hr : start < stop) :
    (dateRangeEpochs start stop step).length =
      ((stop - start + step - 1) / step).toNat := by
  unfold dateRangeEpochs
  rw [if_pos (And.intro hs hr), List.length_map, List.length_range]

lemma dateRangeEpochs_getElem? (start stop step : Int) (k : Nat)
    (hs : 0 < step) (hk : (k : Int) * step < stop - start) :
    (dateRangeEpochs start stop step)[k]? =
      some (start + (k : Int) * step) := by
  have hr : start < stop := by
    have h0 : (0 : Int) ≤ (k : Int) * step :=
      mul_nonneg (Int.natCast_nonneg k) (le_of_lt hs)
    linarith
  have hlt : (k : Int) < (stop - start + step - 1) / step :=
    lt_ceilDiv_of_mul_lt hs hk
  have hk2 : k < ((stop - start + step - 1) / step).toNat :=
    Int.lt_toNat.mpr hlt
  unfold dateRangeEpochs
  rw [if_pos (And.intro hs hr), List.getElem?_map, List.getElem?_range hk2]
  rfl

lemma hourlyDateAxis_length (t tEnd step : Int) (hs : 0 < step)
    (hr : t < tEnd) :
    (hourlyDateAxis t tEnd step).length =
      ((tEnd - t + step - 1) / step).toNat := by
  unfold hourlyDateAxis pdDateRange pdToDatetime
  rw [List.length_map, dateRangeEpochs_length t tEnd step hs hr]

lemma hourlyDateAxis_getElem? (t tEnd step : Int) (k : Nat) (hs : 0 < step)
    (hk : (k : Int) * step < tEnd - t) :
    (hourlyDateAxis t tEnd step)[k]? =
      some ⟨t + (k : Int) * step, true⟩ := by
  unfold hourlyDateAxis pdDateRange pdToDatetime
  rw [List.getElem?_map, dateRangeEpochs_getElem? t tEnd step k hs hk]
  rfl

lemma hourlyDateAxis_eq_nil {t tEnd step : Int}
    (h : ¬ (0 < step ∧ t < tEnd)) : hourlyDateAxis t tEnd step = [] := by
  unfold hourlyDateAxis pdDateRange pdToDatetime dateRangeEpochs
  rw [if_neg h]
  rfl

lemma mem_hourlyDateAxis {t tEnd step : Int} {x : Timestamp}
    (hx : x ∈ hourlyDateAxis t tEnd step) :
    x.utc = true ∧ x.epoch < tEnd := by
  by_cases hc : 0 < step ∧ t < tEnd
  · obtain ⟨i, hi⟩ := List.mem_iff_getElem?.mp hx
    have hilen : i < (hourlyDateAxis t tEnd step).length :=
      (List.getElem?_eq_some.mp hi).1
    rw [hourlyDateAxis_length t tEnd step hc.1 hc.2] at hilen
    have hki : (i : Int) * step < tEnd - t :=
      mul_lt_of_lt_ceilDiv hc.1 (Int.lt_toNat.mp hilen)
    rw [hourlyDateAxis_getElem? t tEnd step i hc.1 hki] at hi
    cases hi
    refine ⟨rfl, ?_⟩
    show t + (i : Int) * step < tEnd
    linarith
  · rw [hourlyDateAxis_eq_nil hc] at hx
    simp at hx

lemma head?_of_getElem?_zero {β : Type} {l : List β} {a : β}
    (h : l[0]? = some a) : l.head? = some a := by
  cases l with
  | nil => simp at h
  | cons b t => simpa using h

/-! ### Claim theorems -/

/-- C2: for every valid payload (positive interval, end after start) the
generated timestamp axis is exactly the sequence
`start_time + k * interval_seconds` for `k = 0 .. n-1`: its first element
equals `start_time`, consecutive entries are strictly increasing with
constant spacing `interval_seconds`, and no entry reaches `end_time`, so
the axis never contains `end_time` itself even when a multiple of the
interval lands on it exactly (half-open semantics). -/
theorem axis_is_half_open_progression (t tEnd step : Int)
    (hs : 0 < step) (hr : t < tEnd) :
    (hourlyDateAxis t tEnd step).head? = some ⟨t, true⟩ ∧
    (∀ k : Nat, k < (hourlyDateAxis t tEnd step).length →
      (hourlyDateAxis t tEnd step)[k]? =
        some ⟨t + (k : Int) * step, true⟩) ∧
    (∀ (k : Nat) (a b : Timestamp),
      (hourlyDateAxis t tEnd step)[k]? = some a →
      (hourlyDateAxis t tEnd step)[k + 1]? = some b →
      a.epoch < b.epoch ∧ b.epoch = a.epoch + step) ∧
    (∀ x : Timestamp, x ∈ hourlyDateAxis t tEnd step → x.epoch < tEnd) := by
  have hget : ∀ k : Nat, k < (hourlyDateAxis t tEnd step).length →
      (hourlyDateAxis t tEnd step)[k]? =
        some ⟨t + (k : Int) * step, true⟩ := by
    intro k hk
    rw [hourlyDateAxis_length t tEnd step hs hr] at hk
    exact hourlyDateAxis_getElem? t tEnd step k hs
      (mul_lt_of_lt_ceilDiv hs (Int.lt_toNat.mp hk))
  refine ⟨?_, hget, ?_, ?_⟩
  · have h0 : (hourlyDateAxis t tEnd step)[0]? = some ⟨t + (0 : Int) * step, true⟩ :=
      hourlyDateAxis_getElem? t tEnd step 0 hs (by simpa using hr)
    rw [zero_mul, add_zero] at h0
    exact head?_of_getElem?_zero h0
  · intro k a b ha hb
    have hkb : k + 1 < (hourlyDateAxis t tEnd step).length :=
      (List.getElem?_eq_some.mp hb).1
    have hka : k < (hourlyDateAxis t tEnd step).length := by omega
    rw [hget k hka] at ha
    rw [hget (k + 1) hkb] at hb
    cases ha
    cases hb
    constructor
    · show t + (k : Int) * step < t + ((k : Nat) + 1 : Nat) * step
      push_cast
      nlinarith
    · show t + ((k : Nat) + 1 : Nat) * step = t + (k : Int) * step + step
      push_cast
      ring
  · intro x hx
    exact (mem_hourlyDateAxis hx).2

/-- C2 witness: for `start_time = 0`, `end_time = 7200`,
`interval_seconds = 3600` the axis starts at `0` and its second entry is
`3600`, one interval later. -/
theorem axis_is_half_open_progression_witness :
    (hourlyDateAxis 0 7200 3600).head? = some ⟨0, true⟩ ∧
    (hourlyDateAxis 0 7200 3600)[1]? = some ⟨3600, true⟩ := by
  have h := axis_is_half_open_progression 0 7200 3600 (by decide) (by decide)
  exact ⟨h.1, h.2.1 1 (by decide)⟩

/-- C9: every timestamp placed on the output axis of either function is a
UTC-timezone-aware instant; the epoch-second bounds are converted with
`utc = True` before `pd.date_range` runs, and every generated instant
inherits that awareness. -/
theorem axis_timestamps_are_utc {α : Type} (ha hw : HourlyResponse α)
    (x y : Timestamp)
    (hx : x ∈ dateAxis (get_air_pollution_history ha))
    (hy : y ∈ dateAxis (get_weather_history hw)) :
    x.utc = true ∧ y.utc = true := by
  have ea : dateAxis (get_air_pollution_history ha) =
      hourlyDateAxis ha.time ha.timeEnd ha.interval := rfl
  have ew : dateAxis (get_weather_history hw) =
      hourlyDateAxis hw.time hw.timeEnd hw.interval := rfl
  rw [ea] at hx
  rw [ew] at hy
  exact ⟨(mem_hourlyDateAxis hx).1, (mem_hourlyDateAxis hy).1⟩

/-- C9 witness: concrete one-hour and two-hour responses whose axis
entries are UTC-aware. -/
theorem axis_timestamps_are_utc_witness :
    (⟨0, true⟩ : Timestamp).utc = true ∧
    (⟨3600, true⟩ : Timestamp).utc = true :=
  axis_timestamps_are_utc
    (⟨0, 3600, 3600, []⟩ : HourlyResponse Int)
    (⟨0, 7200, 3600, []⟩ : HourlyResponse Int)
    ⟨0, true⟩ ⟨3600, true⟩ (by decide) (by decide)

/-- C10: the returned mapping holds exactly one key per requested variable
name plus a single `"date"` key and nothing else, with `"date"` inserted
first and the variable names following in request order: 8 keys for the
air-quality function, 5 for the weather function. -/
theorem output_keys_exact {α : Type} (ha hw : HourlyResponse α) :
    (get_air_pollution_history ha).map Prod.fst = "date" :: airHourlyNames ∧
    (get_air_pollution_history ha).length = 8 ∧
    (get_weather_history hw).map Prod.fst = "date" :: weatherHourlyNames ∧
    (get_weather_history hw).length = 5 :=
  ⟨rfl, rfl, rfl, rfl⟩

/-- C8: the assembly is a deterministic, side-effect-free function of the
hourly payload: two runs on equal inputs produce equal outputs.  The
embedding of lines 49-64 and 104-116 needed no state at all, so no hidden
state can influence or be influenced by a call. -/
theorem assembly_deterministic {α : Type} (h1 h2 : HourlyResponse α)
    (ht : h1.time = h2.time) (hte : h1.timeEnd = h2.timeEnd)
    (hi : h1.interval = h2.interval) (hv : h1.Variables = h2.Variables) :
    get_air_pollution_history h1 = get_air_pollution_history h2 ∧
    get_weather_history h1 = get_weather_history h2 := by
  obtain ⟨t1, e1, i1, v1⟩ := h1
  obtain ⟨t2, e2, i2, v2⟩ := h2
  cases ht
  cases hte
  cases hi
  cases hv
  exact ⟨rfl, rfl⟩

/-- C8 witness: assembling one concrete payload twice yields identical
dictionaries. -/
theorem assembly_deterministic_witness :
    get_air_pollution_history (⟨0, 3600, 3600, [[1]]⟩ : HourlyResponse Int) =
      get_air_pollution_history (⟨0, 3600, 3600, [[1]]⟩ : HourlyResponse Int) ∧
    get_weather_history (⟨0, 3600, 3600, [[1]]⟩ : HourlyResponse Int) =
      get_weather_history (⟨0, 3600, 3600, [[1]]⟩ : HourlyResponse Int) :=
  assembly_deterministic _ _ rfl rfl rfl rfl

/-- C7: the `i`-th requested variable name is bound to the `i`-th variable
series of the response, in request order: the air-quality fields receive
`hourly.Variables(0)` through `hourly.Variables(6)` and the weather fields
`hourly.Variables(0)` through `hourly.Variables(3)`. -/
theorem response_variables_bound_in_request_order {α : Type}
    (ha hw : HourlyResponse α) (i : Fin 7) (j : Fin 4) :
    dictGet (get_air_pollution_history ha) (airHourlyNames.getD i.val "") =
      some (ColumnValue.values (ha.Variables.getD i.val [])) ∧
    dictGet (get_weather_history hw) (weatherHourlyNames.getD j.val "") =
      some (ColumnValue.values (hw.Variables.getD j.val [])) := by
  refine ⟨?_, ?_⟩
  · fin_cases i <;> rfl
  · fin_cases j <;> rfl

/-- C1: for every valid payload, the value the assembled dictionary holds
at sample index `k` of the column named `variables[i].name` is exactly
`variables[i].values[k]`, and the `k`-th entry of the `"date"` axis is the
`k`-th generated timestamp; raw values are carried into the keyed
structure unchanged, for both functions.  The only link needed between
the array length `n` and the range is `n * interval ≤ end_time -
start_time`, which the spec's floor invariant guarantees, so non-dividing
intervals with floor-length arrays are covered. -/
theorem raw_values_roundtrip {α : Type} (ha hw : HourlyResponse α)
    (na nw k j : Nat) (i : Fin 7) (jw : Fin 4)
    (hsa : 0 < ha.interval)
    (hna : (na : Int) * ha.interval ≤ ha.timeEnd - ha.time)
    (hva : ∀ l ∈ ha.Variables, l.length = na)
    (hk : k < na)
    (hsw : 0 < hw.interval)
    (hnw : (nw : Int) * hw.interval ≤ hw.timeEnd - hw.time)
    (hvw : ∀ l ∈ hw.Variables, l.length = nw)
    (hj : j < nw) :
    ((dateAxis (get_air_pollution_history ha))[k]? =
        some ⟨ha.time + (k : Int) * ha.interval, true⟩ ∧
      seriesAt (get_air_pollution_history ha) (airHourlyNames.getD i.val "") k =
        (ha.Variables.getD i.val []).get? k) ∧
    ((dateAxis (get_weather_history hw))[j]? =
        some ⟨hw.time + (j : Int) * hw.interval, true⟩ ∧
      seriesAt (get_weather_history hw) (weatherHourlyNames.getD jw.val "") j =
        (hw.Variables.getD jw.val []).get? j) := by
  have hka : (k : Int) * ha.interval < ha.timeEnd - ha.time := by
    have h1 : (k : Int) + 1 ≤ (na : Int) := by exact_mod_cast hk
    have h2 : ((k : Int) + 1) * ha.interval ≤ (na : Int) * ha.interval :=
      mul_le_mul_of_nonneg_right h1 (le_of_lt hsa)
    have e : ((k : Int) + 1) * ha.interval =
        (k : Int) * ha.interval + ha.interval := by ring
    linarith
  have hjw : (j : Int) * hw.interval < hw.timeEnd - hw.time := by
    have h1 : (j : Int) + 1 ≤ (nw : Int) := by exact_mod_cast hj
    have h2 : ((j : Int) + 1) * hw.interval ≤ (nw : Int) * hw.interval :=
      mul_le_mul_of_nonneg_right h1 (le_of_lt hsw)
    have e : ((j : Int) + 1) * hw.interval =
        (j : Int) * hw.interval + hw.interval := by ring
    linarith
  refine ⟨⟨?_, ?_⟩, ⟨?_, ?_⟩⟩
  · exact hourlyDateAxis_getElem? ha.time ha.timeEnd ha.interval k hsa hka
  · fin_cases i <;> rfl
  · exact hourlyDateAxis_getElem? hw.time hw.timeEnd hw.interval j hsw hjw
  · fin_cases jw <;> rfl

/-- C1 witness: a two-sample air payload and a one-sample weather payload,
checked at sample 1 of the third air variable and sample 0 of the second
weather variable. -/
theorem raw_values_roundtrip_witness :
    ((dateAxis (get_air_pollution_history
        (⟨0, 7200, 3600, [[1, 2], [3, 4], [5, 6], [7, 8], [9, 10],
          [11, 12], [13, 14]]⟩ : HourlyResponse Int)))[1]? =
        some ⟨0 + (1 : Int) * 3600, true⟩ ∧
      seriesAt (get_air_pollution_history
        (⟨0, 7200, 3600, [[1, 2], [3, 4], [5, 6], [7, 8], [9, 10],
          [11, 12], [13, 14]]⟩ : HourlyResponse Int))
        (airHourlyNames.getD 2 "") 1 = [5, 6].get? 1) ∧
    ((dateAxis (get_weather_history
        (⟨0, 3600, 3600, [[21], [22], [23], [24]]⟩ : HourlyResponse Int)))[0]? =
        some ⟨0 + (0 : Int) * 3600, true⟩ ∧
      seriesAt (get_weather_history
        (⟨0, 3600, 3600, [[21], [22], [23], [24]]⟩ : HourlyResponse Int))
        (weatherHourlyNames.getD 1 "") 0 = [22].get? 0) :=
  raw_values_roundtrip
    (⟨0, 7200, 3600, [[1, 2], [3, 4], [5, 6], [7, 8], [9, 10],
      [11, 12], [13, 14]]⟩ : HourlyResponse Int)
    (⟨0, 3600, 3600, [[21], [22], [23], [24]]⟩ : HourlyResponse Int)
    2 1 1 0 ⟨2, by decide⟩ ⟨1, by decide⟩
    (by decide) (by decide) (by decide) (by decide)
    (by decide) (by decide) (by decide) (by decide)

/-- C3 counterexample: the claim says the axis length equals
`floor((end_time - start_time) / interval_seconds)`, but on the payload
`start_time = 0`, `end_time = 10`, `interval_seconds = 3` with one
variable of the floor length 3, the half-open `pd.date_range` axis has
`⌈10 / 3⌉ = 4` entries, not `⌊10 / 3⌋ = 3`. -/
theorem axis_length_floor_counterexample :
    (0 : Int) < 3 ∧ (0 : Int) < 10 ∧ ((10 : Int) - 0) / 3 = 3 ∧
    (∀ l ∈ (⟨0, 10, 3, [[1, 2, 3]]⟩ : HourlyResponse Int).Variables,
      l.length = 3) ∧
    (dateAxis (get_air_pollution_history
      (⟨0, 10, 3, [[1, 2, 3]]⟩ : HourlyResponse Int))).length = 4 := by
  refine ⟨by decide, by decide, by decide, by decide, ?_⟩
  rfl

/-- C3 amended: the code derives the axis length from the half-open range,
which holds `⌈(end_time - start_time) / interval_seconds⌉` entries; when
`interval_seconds` exactly divides `end_time - start_time` — the payload
invariant restated with `n * interval_seconds = end_time - start_time`,
as the upstream hourly API satisfies — the ceiling coincides with the
floor and the axis length equals `n`, the common length of the input
variable arrays. -/
theorem axis_length_matches_series_length {α : Type} (h : HourlyResponse α)
    (n : Nat) (hs : 0 < h.interval) (hr : h.time < h.timeEnd)
    (hn : (n : Int) * h.interval = h.timeEnd - h.time)
    (hv : ∀ l ∈ h.Variables, l.length = n) :
    (dateAxis (get_air_pollution_history h)).length = n := by
  have e : dateAxis (get_air_pollution_history h) =
      hourlyDateAxis h.time h.timeEnd h.interval := rfl
  rw [e, hourlyDateAxis_length h.time h.timeEnd h.interval hs hr]
  have e2 : h.timeEnd - h.time + h.interval - 1 =
      (h.interval - 1) + (n : Int) * h.interval := by linarith
  rw [e2, Int.add_mul_ediv_right _ _ (ne_of_gt hs),
    Int.ediv_eq_zero_of_lt (by linarith) (by linarith), zero_add]
  exact Int.toNat_natCast n

/-- C3 amended witness: a payload with two samples per variable and a
range of exactly two intervals has a two-entry axis. -/
theorem axis_length_matches_series_length_witness :
    (dateAxis (get_air_pollution_history
      (⟨0, 7200, 3600, [[1, 2], [3, 4], [5, 6], [7, 8], [9, 10],
        [11, 12], [13, 14]]⟩ : HourlyResponse Int))).length = 2 :=
  axis_length_matches_series_length
    (⟨0, 7200, 3600, [[1, 2], [3, 4], [5, 6], [7, 8], [9, 10],
      [11, 12], [13, 14]]⟩ : HourlyResponse Int)
    2 (by decide) (by decide) (by decide) (by decide)

lemma seriesLengthsConsistent_iff {α : Type} (p : ResponsePayload α) :
    seriesLengthsConsistent p = true ↔
      ∀ v ∈ p.variableSeries, ∀ w ∈ p.variableSeries,
        v.values.length = w.values.length := by
  obtain ⟨st, en, iv, vs⟩ := p
  cases vs with
  | nil => simp [seriesLengthsConsistent]
  | cons v0 rest =>
    simp only [seriesLengthsConsistent, List.all_eq_true, decide_eq_true_eq]
    constructor
    · intro hall v hv w hw
      have hlen : ∀ u : RawVariableSeries α, u ∈ v0 :: rest →
          u.values.length = v0.values.length := by
        intro u hu
        rcases List.mem_cons.mp hu with rfl | hmem
        · rfl
        · exact hall u hmem
      rw [hlen v hv, hlen w hw]
    · intro hpair w hw
      exact hpair w (List.mem_cons_of_mem v0 hw) v0 (List.mem_cons_self v0 rest)

/-- C4: a payload whose `interval_seconds` is not a positive integer (in
particular zero) makes `assemble` fail with `InvalidIntervalError` and
produce no output. -/
theorem nonpositive_interval_fails {α : Type} [Inhabited α]
    (p : ResponsePayload α) (hle : p.interval_seconds ≤ 0) :
    assemble p = Except.error AssembleError.invalidInterval := by
  unfold assemble
  rw [if_pos hle]

/-- C4 witness: `interval_seconds = 0` fails with `InvalidIntervalError`. -/
theorem nonpositive_interval_fails_witness :
    assemble (⟨0, 7200, 0, [⟨"pm10", [1, 2]⟩]⟩ : ResponsePayload Int) =
      Except.error AssembleError.invalidInterval :=
  nonpositive_interval_fails _ (by decide)

/-- C5: a payload containing two variables whose value arrays have
different lengths never produces an assembled series, and fails with
`InconsistentSeriesLengthError` whenever the interval check listed before
it in the spec passes. -/
theorem inconsistent_lengths_fail {α : Type} [Inhabited α]
    (p : ResponsePayload α) (v w : RawVariableSeries α)
    (hv : v ∈ p.variableSeries) (hw : w ∈ p.variableSeries)
    (hne : v.values.length ≠ w.values.length) :
    (∀ out, assemble p ≠ Except.ok out) ∧
    (0 < p.interval_seconds →
      assemble p = Except.error AssembleError.inconsistentSeriesLength) := by
  have hcons : seriesLengthsConsistent p = false := by
    have hct : seriesLengthsConsistent p ≠ true := fun hc =>
      hne ((seriesLengthsConsistent_iff p).mp hc v hv w hw)
    simpa using hct
  constructor
  · intro out hok
    unfold assemble at hok
    by_cases h1 : p.interval_seconds ≤ 0
    · rw [if_pos h1] at hok
      exact Except.noConfusion hok
    · rw [if_neg h1, if_pos hcons] at hok
      exact Except.noConfusion hok
  · intro hpos
    unfold assemble
    rw [if_neg (by omega), if_pos hcons]

/-- C5 witness: two variables of lengths 5 and 4 fail with
`InconsistentSeriesLengthError`. -/
theorem inconsistent_lengths_fail_witness :
    assemble (⟨0, 7200, 3600,
        [⟨"pm10", [1, 2, 3, 4, 5]⟩, ⟨"pm2_5", [1, 2, 3, 4]⟩]⟩ :
        ResponsePayload Int) =
      Except.error AssembleError.inconsistentSeriesLength :=
  (inconsistent_lengths_fail _ ⟨"pm10", [1, 2, 3, 4, 5]⟩
    ⟨"pm2_5", [1, 2, 3, 4]⟩ (by decide) (by decide) (by decide)).2 (by decide)

/-- C6: a payload whose `end_time` is not strictly greater than
`start_time` never returns an assembled series, not even an empty one, and
fails with `InvalidRangeError` whenever the two checks the spec lists
before it pass. -/
theorem invalid_range_fails {α : Type} [Inhabited α]
    (p : ResponsePayload α) (hle : p.end_time ≤ p.start_time) :
    (∀ out, assemble p ≠ Except.ok out) ∧
    (0 < p.interval_seconds → seriesLengthsConsistent p = true →
      assemble p = Except.error AssembleError.invalidRange) := by
  constructor
  · intro out hok
    unfold assemble at hok
    by_cases h1 : p.interval_seconds ≤ 0
    · rw [if_pos h1] at hok
      exact Except.noConfusion hok
    · rw [if_neg h1] at hok
      by_cases h2 : seriesLengthsConsistent p = false
      · rw [if_pos h2] at hok
        exact Except.noConfusion hok
      · rw [if_neg h2, if_pos hle] at hok
        exact Except.noConfusion hok
  · intro hpos hcons
    unfold assemble
    rw [if_neg (by omega), if_neg (by simp [hcons]), if_pos hle]

/-- C6 witness: an empty range (`end_time = start_time`) fails with
`InvalidRangeError` rather than returning an empty series. -/
theorem invalid_range_fails_witness :
    assemble (⟨7200, 7200, 3600, [⟨"pm10", [1]⟩]⟩ : ResponsePayload Int) =
      Except.error AssembleError.invalidRange :=
  (invalid_range_fails _ (by decide)).2 (by decide) (by decide)

end AqiPrediction
